import Mathlib

/-!
Verification of the progress-inference engine of the constructor repository:
status normalization, item history building, per-item scoring (V2/V3),
weighted category aggregation, and configuration validation.

Modelling conventions (shallow embedding of the TypeScript source):
- JS strings are modelled as Lean String values; character-level scans work
  on List Char (String.data). JS String.prototype.includes is lcHas,
  String.prototype.toLowerCase is modelled on the ASCII range (the only
  cased characters occurring in the keyword tables; Hebrew has no case),
  String.prototype.trim strips ASCII whitespace.
- JS numbers are modelled as rationals; Math.round x is jsRound, namely
  the floor of x + 1/2, which agrees with JS round-half-up semantics.
- TS string enums are runtime strings: WorkStatus values travel as their
  string names wherever the source casts database strings with
  (status as WorkStatus).
- JS objects used as lookup tables are association lists in literal order;
  JS Map.set replaces in place and appends new keys.
-/

/-! ## JS string primitives -/

/-- Character list of a string (JS strings over BMP code points). -/
def chars (s : String) : List Char := s.data

/-- ASCII lowercasing of one character; models JS toLowerCase on the
character sets appearing in the keyword tables (Hebrew is caseless). -/
def jsLowerChar (c : Char) : Char :=
  if 'A' ≤ c && c ≤ 'Z' then Char.ofNat (c.toNat + 32) else c

/-- Lowercase a character list. -/
def lowerL (l : List Char) : List Char := l.map jsLowerChar

/-- JS whitespace test (the whitespace occurring in the inputs). -/
def isJsWs (c : Char) : Bool :=
  c == ' ' || c == '\t' || c == '\n' || c == '\r'

/-- Model of JS String.prototype.trim. -/
def trimL (l : List Char) : List Char :=
  ((l.dropWhile isJsWs).reverse.dropWhile isJsWs).reverse

/-- Does the first list start with the second? -/
def lcStarts : List Char → List Char → Bool
  | _, [] => true
  | [], _ :: _ => false
  | c :: cs, d :: ds => c == d && lcStarts cs ds

/-- Model of JS String.prototype.includes: the needle occurs contiguously
in the haystack. -/
def lcHas : List Char → List Char → Bool
  | [], ns => ns.isEmpty
  | c :: cs, ns => lcStarts (c :: cs) ns || lcHas cs ns

/-- JS round: Math.round x = floor (x + 1/2). -/
def jsRound (q : ℚ) : ℤ := ⌊q + 1/2⌋

/-- JS a || b for numbers: b when a is falsy (zero), else a. -/
def jsOrQ (a b : ℚ) : ℚ := if a = 0 then b else a

/-- JS Math.abs. -/
def jsAbs (q : ℚ) : ℚ := if q < 0 then -q else q

/-- Lookup in a JS object literal modelled as an association list. -/
def objLookup (entries : List (String × α)) (k : List Char) : Option α :=
  (entries.find? (fun e => chars e.1 == k)).map (·.2)

/-! ## status-mapper.ts (src/unnamed/part_001) -/

/-- The WorkStatus enum of status-mapper.ts. -/
inductive WorkStatus
  | COMPLETED
  | COMPLETED_OK
  | NOT_OK
  | DEFECT
  | IN_PROGRESS
  | HANDLED
  | PENDING
  | NOT_STARTED
deriving DecidableEq

/-- hebrewStatusMap of status-mapper.ts, in literal (= JS iteration) order. -/
def hebrewStatusEntries : List (String × WorkStatus) :=
  [ ("בוצע", .COMPLETED)
  , ("בוצע - תקין", .COMPLETED_OK)
  , ("תקין", .COMPLETED_OK)
  , ("לא תקין", .NOT_OK)
  , ("ליקוי", .DEFECT)
  , ("בטיפול", .IN_PROGRESS)
  , ("טופל", .HANDLED)
  , ("ממתין", .PENDING)
  , ("לא התחיל", .NOT_STARTED)
  , ("בביצוע", .IN_PROGRESS)
  , ("הושלם", .COMPLETED)
  , ("נמצא ליקוי", .DEFECT)
  , ("תוקן", .HANDLED)
  , ("קיימים אי תאומים", .DEFECT)
  , ("קיימים אי תיאומים", .DEFECT)
  , ("אי תאומים", .DEFECT)
  , ("אי תיאומים", .DEFECT)
  , ("יש הערות", .DEFECT)
  , ("בוצע - יש הערות", .DEFECT)
  , ("בוצע - יש ליקויים", .DEFECT)
  , ("בוצע - נמצאו אי תאומים", .DEFECT)
  , ("בוצע - נמצאו אי תיאומים", .DEFECT)
  , ("נמצאו אי תאומים", .DEFECT)
  , ("נמצאו אי תיאומים", .DEFECT)
  , ("בוצע חלקי", .DEFECT)
  , ("בוצע חלקית", .DEFECT)
  , ("לטיפול", .PENDING)
  , ("נדרש מעקב", .PENDING)
  , ("נדרש ביצוע", .PENDING)
  , ("בוצע עם הערות", .DEFECT)
  ]

/-- normalizeStatus of status-mapper.ts: trim, exact table lookup, then a
substring scan over the table entries in literal order, defaulting to
IN_PROGRESS. -/
def normalizeStatus (hebrewStatus : String) : WorkStatus :=
  let trimmed := trimL (chars hebrewStatus)
  match objLookup hebrewStatusEntries trimmed with
  | some st => st
  | none =>
    match hebrewStatusEntries.find? (fun e => lcHas trimmed (chars e.1)) with
    | some e => e.2
    | none => WorkStatus.IN_PROGRESS

/-- NEGATIVE_KEYWORDS of status-mapper.ts. -/
def NEGATIVE_KEYWORDS : List String :=
  [ "אי תיאומים", "אי תאומים", "נמצאו אי", "קיימים אי"
  , "יש הערות", "יש ליקויים", "ליקוי", "ליקויים"
  , "לא תקין", "חסר", "חסרות", "חסרים", "חסרה"
  , "שבור", "שבורים", "שבורה", "סדוק", "סדוקים"
  , "פגם", "פגמים", "בעיה", "בעיות", "לתקן", "תיקון", "תיקונים"
  , "לא בוצע", "לא הותקן", "לא הותקנו", "לא הושלם"
  , "נזק", "נזקים", "missing", "defect", "חתוך", "להחליף"
  ]

/-- isPositiveStatus of status-mapper.ts, at the runtime string level. -/
def isPositiveStatusS (status : String) : Bool :=
  status == "COMPLETED" || status == "COMPLETED_OK" || status == "HANDLED"

/-- isNegativeStatus of status-mapper.ts, at the runtime string level. -/
def isNegativeStatusS (status : String) : Bool :=
  status == "NOT_OK" || status == "DEFECT"

/-- hasNegativeNotes of status-mapper.ts: null or empty notes give false;
otherwise scan the lowered notes for any lowered negative keyword. -/
def hasNegativeNotes (notes : Option String) : Bool :=
  match notes with
  | none => false
  | some n =>
    if n = "" then false
    else NEGATIVE_KEYWORDS.any (fun k => lcHas (lowerL (chars n)) (lowerL (chars k)))

/-- getEffectiveStatus of status-mapper.ts: keep a negative status, promote
a positive status with negative notes to DEFECT, else keep the status. -/
def getEffectiveStatus (status : String) (notes : Option String) : String :=
  if isNegativeStatusS status then status
  else if isPositiveStatusS status && hasNegativeNotes notes then "DEFECT"
  else status

/-! ## progress-config.ts -/

/-- The progressThresholds record of ProgressConfig. -/
structure ProgressThresholds where
  VERIFIED_NO_DEFECTS : ℚ
  CATEGORY_GRADUATED : ℚ
  ITEM_FIXED : ℚ
  COMPLETED_OK_LATER : ℚ
  COMPLETED_OK_FIRST : ℚ
  HANDLED : ℚ
  COMPLETED_WITH_ISSUES : ℚ
  DEFECT_WORK_DONE : ℚ
  IN_PROGRESS : ℚ
  PENDING : ℚ
  UNKNOWN : ℚ
  NOT_STARTED : ℚ
  CATEGORY_NEVER_SEEN : ℚ
deriving DecidableEq

/-- ProgressConfig of progress-config.ts; categoryWeights is a JS object
modelled as an association list in literal order. -/
structure ProgressConfig where
  categoryWeights : List (String × ℚ)
  progressThresholds : ProgressThresholds
  baselineProgress : ℚ
  maxProgress : ℚ
  defectPenalty : ℚ
  defaultCategoryWeight : ℚ
  lastUpdated : Option String
deriving DecidableEq

/-- DEFAULT_CONFIG of progress-config.ts. -/
def DEFAULT_CONFIG : ProgressConfig :=
  { categoryWeights :=
      [ ("ELECTRICAL", 12), ("PLUMBING", 10), ("SPRINKLERS", 5)
      , ("WATERPROOFING", 5), ("DRYWALL", 10), ("FLOORING", 15)
      , ("AC", 8), ("PAINTING", 10), ("KITCHEN", 10), ("OTHER", 15) ]
  , progressThresholds :=
      { VERIFIED_NO_DEFECTS := 90
      , CATEGORY_GRADUATED := 90
      , ITEM_FIXED := 90
      , COMPLETED_OK_LATER := 75
      , COMPLETED_OK_FIRST := 50
      , HANDLED := 70
      , COMPLETED_WITH_ISSUES := 65
      , DEFECT_WORK_DONE := 55
      , IN_PROGRESS := 30
      , PENDING := 15
      , UNKNOWN := 15
      , NOT_STARTED := 5
      , CATEGORY_NEVER_SEEN := 0 }
  , baselineProgress := 30
  , maxProgress := 95
  , defectPenalty := 5
  , defaultCategoryWeight := 10
  , lastUpdated := none }

/-- Object.entries of a progressThresholds record, in field order. -/
def thresholdEntries (t : ProgressThresholds) : List (String × ℚ) :=
  [ ("VERIFIED_NO_DEFECTS", t.VERIFIED_NO_DEFECTS)
  , ("CATEGORY_GRADUATED", t.CATEGORY_GRADUATED)
  , ("ITEM_FIXED", t.ITEM_FIXED)
  , ("COMPLETED_OK_LATER", t.COMPLETED_OK_LATER)
  , ("COMPLETED_OK_FIRST", t.COMPLETED_OK_FIRST)
  , ("HANDLED", t.HANDLED)
  , ("COMPLETED_WITH_ISSUES", t.COMPLETED_WITH_ISSUES)
  , ("DEFECT_WORK_DONE", t.DEFECT_WORK_DONE)
  , ("IN_PROGRESS", t.IN_PROGRESS)
  , ("PENDING", t.PENDING)
  , ("UNKNOWN", t.UNKNOWN)
  , ("NOT_STARTED", t.NOT_STARTED)
  , ("CATEGORY_NEVER_SEEN", t.CATEGORY_NEVER_SEEN) ]

/-- Sum of Object.values of categoryWeights (the reduce in validateConfig). -/
def weightSum (cw : List (String × ℚ)) : ℚ := (cw.map (·.2)).sum

/-- Spread-merge of two JS objects modelled as association lists: keys of
the base keep their position, overridden values win, new keys append. -/
def objMerge (base override : List (String × ℚ)) : List (String × ℚ) :=
  base.map (fun e =>
    match objLookup override (chars e.1) with
    | some v => (e.1, v)
    | none => e)
  ++ override.filter (fun e => (objLookup base (chars e.1)).isNone)

/-- loadConfig of progress-config.ts, parameterized by the parsed contents
of the persisted config file (none models a missing or unreadable file):
a missing file yields DEFAULT_CONFIG; a present file is spread-merged over
the defaults. -/
def loadConfig (fileContents : Option ProgressConfig) : ProgressConfig :=
  match fileContents with
  | none => DEFAULT_CONFIG
  | some c =>
    { c with
      categoryWeights := objMerge DEFAULT_CONFIG.categoryWeights c.categoryWeights }

/-- One validation message pushed by validateConfig; the constructor
identifies the push site (the Hebrew message text is abstracted). -/
inductive VMsg
  | weightSumNot100
  | negativeWeight (cat : String)
  | zeroWeight (cat : String)
  | thresholdOutOfRange (key : String)
  | orderVerifiedLeLater
  | orderLaterLeFirst
  | orderHandledLeDefect
  | orderDefectLeInProgress
  | orderInProgressLePending
  | orderPendingLeNotStarted
  | baselineOutOfRange
  | maxOutOfRange
  | baselineGeMax
  | negativeDefaultWeight
  | negativeDefectPenalty
deriving DecidableEq

/-- ValidationResult of progress-config.ts. -/
structure ValidationResult where
  valid : Bool
  errors : List VMsg
  warnings : List VMsg
deriving DecidableEq

/-- validateConfig of progress-config.ts: errors and warnings are pushed in
source order; valid is emptiness of the error list. -/
def validateConfig (cfg : ProgressConfig) : ValidationResult :=
  let ws := weightSum cfg.categoryWeights
  let t := cfg.progressThresholds
  let errors : List VMsg :=
    (if jsAbs (ws - 100) > 1/100 then [.weightSumNot100] else [])
    ++ (cfg.categoryWeights.filter (fun e => decide (e.2 < 0))).map
        (fun e => .negativeWeight e.1)
    ++ ((thresholdEntries t).filter (fun e => decide (e.2 < 0) || decide (e.2 > 100))).map
        (fun e => .thresholdOutOfRange e.1)
    ++ (if cfg.baselineProgress < 0 ∨ cfg.baselineProgress > 100 then [.baselineOutOfRange] else [])
    ++ (if cfg.maxProgress < 0 ∨ cfg.maxProgress > 100 then [.maxOutOfRange] else [])
    ++ (if cfg.baselineProgress ≥ cfg.maxProgress then [.baselineGeMax] else [])
    ++ (if cfg.defaultCategoryWeight < 0 then [.negativeDefaultWeight] else [])
    ++ (if cfg.defectPenalty < 0 then [.negativeDefectPenalty] else [])
  let warnings : List VMsg :=
    (cfg.categoryWeights.filter (fun e => decide (e.2 = 0))).map
        (fun e => .zeroWeight e.1)
    ++ (if t.VERIFIED_NO_DEFECTS ≤ t.COMPLETED_OK_LATER then [.orderVerifiedLeLater] else [])
    ++ (if t.COMPLETED_OK_LATER ≤ t.COMPLETED_OK_FIRST then [.orderLaterLeFirst] else [])
    ++ (if t.HANDLED ≤ t.DEFECT_WORK_DONE then [.orderHandledLeDefect] else [])
    ++ (if t.DEFECT_WORK_DONE ≤ t.IN_PROGRESS then [.orderDefectLeInProgress] else [])
    ++ (if t.IN_PROGRESS ≤ t.PENDING then [.orderInProgressLePending] else [])
    ++ (if t.PENDING ≤ t.NOT_STARTED then [.orderPendingLeNotStarted] else [])
  { valid := errors.isEmpty, errors := errors, warnings := warnings }

/-! ## progress-calculator-v3 (second document of src/src/lib/snapshot.ts) -/

/-- VERIFICATION_KEYWORDS of progress-calculator-v3. -/
def VERIFICATION_KEYWORDS : List String :=
  [ "תקין", "מאושר", "אושר", "הושלם בהצלחה", "ללא הערות"
  , "ללא ליקויים", "בסדר", "ok", "verified", "approved" ]

/-- isVerified of progress-calculator-v3: notes contain a verification
keyword (case-insensitive). -/
def isVerified (notes : Option String) : Bool :=
  match notes with
  | none => false
  | some n =>
    if n = "" then false
    else VERIFICATION_KEYWORDS.any (fun k => lcHas (lowerL (chars n)) (lowerL (chars k)))

/-- The fields of ProgressContext read by the scorers. -/
structure ProgressContext where
  previousProgress : Option ℚ := none
  isFirstTimeSeen : Option Bool := none
deriving DecidableEq

/-- ProgressResult of progress-calculator-v3. -/
structure ProgressResult where
  progress : ℚ
  delta : ℚ
  reason : String
  hasRegression : Bool
deriving DecidableEq

/-- calculateItemProgressV3 of progress-calculator-v3, with the dynamic
thresholds of getProgressThresholds passed explicitly. Dispatches on the
effective status; isFirstTimeSeen defaults to true when absent. -/
def calculateItemProgressV3 (thresholds : ProgressThresholds)
    (status : String) (notes : Option String)
    (context : ProgressContext := {}) : ProgressResult :=
  let effectiveStatus := getEffectiveStatus status notes
  let isFirstTime := context.isFirstTimeSeen != some false
  let pr : ℚ × String :=
    if effectiveStatus == "COMPLETED_OK" then
      (thresholds.VERIFIED_NO_DEFECTS, "verified_no_defects")
    else if effectiveStatus == "COMPLETED" then
      if isVerified notes then (thresholds.VERIFIED_NO_DEFECTS, "verified_via_notes")
      else if isFirstTime then (thresholds.COMPLETED_OK_FIRST, "completed_ok_first_time")
      else (thresholds.COMPLETED_OK_LATER, "completed_ok_later")
    else if effectiveStatus == "HANDLED" then (thresholds.HANDLED, "handled")
    else if effectiveStatus == "DEFECT" || effectiveStatus == "NOT_OK" then
      (thresholds.DEFECT_WORK_DONE, "defect_work_done")
    else if effectiveStatus == "IN_PROGRESS" then (thresholds.IN_PROGRESS, "in_progress")
    else if effectiveStatus == "PENDING" then (thresholds.PENDING, "pending")
    else if effectiveStatus == "NOT_STARTED" then (thresholds.NOT_STARTED, "not_started")
    else (thresholds.UNKNOWN, "unknown_status")
  let previousProgress := jsOrQ (context.previousProgress.getD 0) 0
  { progress := pr.1
  , delta := pr.1 - previousProgress
  , reason := pr.2
  , hasRegression := decide (pr.1 < previousProgress) }

/-- The module-level PROGRESS_THRESHOLDS constant of upload-validation.ts
(numerically equal to the DEFAULT_CONFIG thresholds). -/
def UPLOAD_PROGRESS_THRESHOLDS : ProgressThresholds :=
  DEFAULT_CONFIG.progressThresholds

/-- The standalone calculateItemProgressV2 of upload-validation.ts:
dispatches on the raw status with an explicit negative-notes check and
reads the static module thresholds. -/
def calculateItemProgressV2 (status : String) (notes : Option String)
    (context : ProgressContext := {}) : ProgressResult :=
  let hasIssuesInNotes := hasNegativeNotes notes
  let isFirstTime := context.isFirstTimeSeen != some false
  let t := UPLOAD_PROGRESS_THRESHOLDS
  let pr : ℚ × String :=
    if status == "COMPLETED_OK" then
      if hasIssuesInNotes then (t.COMPLETED_WITH_ISSUES, "completed_ok_with_issues")
      else (t.VERIFIED_NO_DEFECTS, "verified_no_defects")
    else if status == "COMPLETED" then
      if hasIssuesInNotes then (t.COMPLETED_WITH_ISSUES, "completed_with_issues")
      else if isVerified notes then (t.VERIFIED_NO_DEFECTS, "verified_via_notes")
      else if isFirstTime then (t.COMPLETED_OK_FIRST, "completed_ok_first_time")
      else (t.COMPLETED_OK_LATER, "completed_ok_later")
    else if status == "HANDLED" then (t.HANDLED, "handled")
    else if status == "DEFECT" || status == "NOT_OK" then
      (t.DEFECT_WORK_DONE, "defect_work_done")
    else if status == "IN_PROGRESS" then (t.IN_PROGRESS, "in_progress")
    else if status == "PENDING" then (t.PENDING, "pending")
    else if status == "NOT_STARTED" then (t.NOT_STARTED, "not_started")
    else (t.UNKNOWN, "unknown_status")
  let previousProgress := jsOrQ (context.previousProgress.getD 0) 0
  { progress := pr.1
  , delta := pr.1 - previousProgress
  , reason := pr.2
  , hasRegression := decide (pr.1 < previousProgress) }

/-- The weight of a category in the aggregators: the JS expression
weights[category] || config.defaultCategoryWeight, so an absent OR zero
weight falls back to the default. -/
def weightOf (cfg : ProgressConfig) (category : String) : ℚ :=
  match objLookup cfg.categoryWeights (chars category) with
  | some w => jsOrQ w cfg.defaultCategoryWeight
  | none => cfg.defaultCategoryWeight

/-- The contribution of one ever-seen category to the running pair of
(weightedSum, totalWeight) in calculateOverallProgressWithAllCategories. -/
def overallStep (cfg : ProgressConfig) (current : List (String × ℚ))
    (acc : ℚ × ℚ) (category : String) : ℚ × ℚ :=
  let weight := weightOf cfg category
  match objLookup current (chars category) with
  | some p => (acc.1 + jsOrQ p 0 * weight, acc.2 + weight)
  | none => (acc.1 + cfg.progressThresholds.CATEGORY_GRADUATED * weight, acc.2 + weight)

/-- calculateOverallProgressWithAllCategories of progress-calculator-v3:
iterate over the ever-seen categories, weighting present categories by
their computed progress and absent ones by CATEGORY_GRADUATED; returns 0
for an empty ever-seen set or zero total weight. -/
def calculateOverallProgressWithAllCategories (cfg : ProgressConfig)
    (currentCategoryProgress : List (String × ℚ))
    (categoriesEverSeen : List String) : ℤ :=
  if categoriesEverSeen.isEmpty then 0
  else
    let acc := categoriesEverSeen.foldl (overallStep cfg currentCategoryProgress) (0, 0)
    if acc.2 = 0 then 0 else jsRound (acc.1 / acc.2)

/-! ## stats route (src/unnamed/part_006) -/

/-- itemHasDefect of the stats route: negative status OR negative notes. -/
def itemHasDefect (status : String) (notes : Option String) : Bool :=
  isNegativeStatusS status || hasNegativeNotes notes

/-- itemIsCompleted of the stats route: positive status AND clean notes. -/
def itemIsCompleted (status : String) (notes : Option String) : Bool :=
  isPositiveStatusS status && !hasNegativeNotes notes

/-- The ItemHistory record built by the stats route (report dates are
modelled as natural timestamps). -/
structure ItemHistory where
  category : String
  status : String
  notes : Option String
  description : String
  location : Option String
  id : String
  reportDate : ℕ
  apartmentNumber : String
  firstSeenReportIndex : ℕ
  lastSeenReportIndex : ℕ
  isInLatestReport : Bool
  hadDefectEver : Bool
  defectReportDate : Option ℕ
deriving DecidableEq

/-- calculateEffectiveProgress of the stats route: an item present in the
latest report is scored by the V2 entry point (which the progress-calculator
module resolves to calculateItemProgressV3 with the dynamic thresholds),
with isFirstTimeSeen true when the item first appeared in the latest
report; an absent item gets the static ITEM_FIXED threshold of the
module-level PROGRESS_THRESHOLDS constant (the DEFAULT_CONFIG values). -/
def calculateEffectiveProgress (cfg : ProgressConfig) (latestReportIndex : ℕ)
    (item : ItemHistory) : ℚ :=
  if item.isInLatestReport then
    (calculateItemProgressV3 cfg.progressThresholds item.status item.notes
      { isFirstTimeSeen := some (item.firstSeenReportIndex == latestReportIndex) }).progress
  else
    DEFAULT_CONFIG.progressThresholds.ITEM_FIXED

/-- One work-item row of a report as consumed by the history-building loop
(apartment resolved to its number, none for the development bucket). -/
structure WorkItemRow where
  aptNumber : Option String
  category : String
  location : Option String
  description : String
  status : String
  notes : Option String
  id : String
deriving DecidableEq

/-- JS s || d for an optional string: d when s is absent or empty. -/
def jsOrStr (s : Option String) (d : String) : String :=
  match s with
  | none => d
  | some t => if t = "" then d else t

/-- The logical-item key of the stats route: aptNumber|category|description. -/
def itemKey (row : WorkItemRow) : String :=
  jsOrStr row.aptNumber "פיתוח" ++ "|" ++ row.category ++ "|" ++ row.description

/-- JS Map.set on an association list: replace in place, else append. -/
def mapSet : List (String × α) → String → α → List (String × α)
  | [], k, v => [(k, v)]
  | (k0, v0) :: rest, k, v =>
    if k0 = k then (k, v) :: rest else (k0, v0) :: mapSet rest k v

/-- JS Map.get on an association list. -/
def mapGet (m : List (String × α)) (k : String) : Option α :=
  (m.find? (fun e => e.1 == k)).map (·.2)

/-- The body of the history-building loop of the stats route for one work
item: update an existing ItemHistory in place (OR-ing the defect flag
sticky) or create a fresh one. -/
def stepItem (itemsInLatestReport : List String) (reportIndex : ℕ)
    (reportDate : ℕ) (hist : List (String × ItemHistory))
    (row : WorkItemRow) : List (String × ItemHistory) :=
  let key := itemKey row
  let isDefectNow := itemHasDefect row.status row.notes
  match mapGet hist key with
  | some existing =>
    mapSet hist key
      { existing with
        status := row.status
        notes := row.notes
        reportDate := reportDate
        lastSeenReportIndex := reportIndex
        isInLatestReport := itemsInLatestReport.contains key
        hadDefectEver := existing.hadDefectEver || isDefectNow
        defectReportDate :=
          if isDefectNow && !existing.hadDefectEver then some reportDate
          else existing.defectReportDate }
  | none =>
    mapSet hist key
      { category := row.category
      , status := row.status
      , notes := row.notes
      , description := row.description
      , location := row.location
      , id := row.id
      , reportDate := reportDate
      , apartmentNumber := jsOrStr row.aptNumber "פיתוח"
      , firstSeenReportIndex := reportIndex
      , lastSeenReportIndex := reportIndex
      , isInLatestReport := itemsInLatestReport.contains key
      , hadDefectEver := isDefectNow
      , defectReportDate := if isDefectNow then some reportDate else none }

/-- One report of the chronological sequence. -/
structure Report where
  reportDate : ℕ
  items : List WorkItemRow
deriving DecidableEq

/-- Fold one report into the item history. -/
def processReport (itemsInLatestReport : List String) (reportIndex : ℕ)
    (hist : List (String × ItemHistory)) (report : Report) :
    List (String × ItemHistory) :=
  report.items.foldl (stepItem itemsInLatestReport reportIndex report.reportDate) hist

/-- Fold a chronological list of reports into the item history, starting
at the given report index. -/
def processReports (itemsInLatestReport : List String) (startIndex : ℕ)
    (hist : List (String × ItemHistory)) :
    List Report → List (String × ItemHistory)
  | [] => hist
  | r :: rs =>
    processReports itemsInLatestReport (startIndex + 1)
      (processReport itemsInLatestReport startIndex hist r) rs

/-! ## rollback route normalizeStatus (src/src/app/api/snapshots/rollback/route.ts) -/

/-- hebrewStatusMap of the rollback route (status codes as strings). -/
def rollbackStatusEntries : List (String × String) :=
  [ ("בוצע", "COMPLETED")
  , ("בוצע - תקין", "COMPLETED_OK")
  , ("תקין", "COMPLETED_OK")
  , ("לא תקין", "NOT_OK")
  , ("ליקוי", "DEFECT")
  , ("בטיפול", "IN_PROGRESS")
  , ("טופל", "HANDLED")
  , ("ממתין", "PENDING")
  , ("לא התחיל", "NOT_STARTED")
  , ("בביצוע", "IN_PROGRESS")
  , ("הושלם", "COMPLETED")
  , ("נמצא ליקוי", "DEFECT")
  , ("תוקן", "HANDLED")
  , ("קיימים אי תאומים", "DEFECT")
  , ("קיימים אי תיאומים", "DEFECT")
  , ("אי תאומים", "DEFECT")
  , ("אי תיאומים", "DEFECT")
  , ("יש הערות", "DEFECT")
  , ("בוצע - יש הערות", "DEFECT")
  , ("בוצע - יש ליקויים", "DEFECT")
  , ("בוצע - נמצאו אי תאומים", "DEFECT")
  , ("בוצע - נמצאו אי תיאומים", "DEFECT")
  , ("נמצאו אי תאומים", "DEFECT")
  , ("נמצאו אי תיאומים", "DEFECT")
  , ("בוצע חלקי", "IN_PROGRESS")
  , ("לטיפול", "PENDING")
  , ("נדרש מעקב", "PENDING")
  , ("נדרש ביצוע", "PENDING")
  , ("בוצע עם הערות", "DEFECT")
  ]

/-- DEFECT_KEYWORDS of the rollback route. -/
def DEFECT_KEYWORDS : List String :=
  [ "אי תיאומים", "אי תאומים", "נמצאו אי", "קיימים אי"
  , "יש הערות", "יש ליקויים", "ליקוי", "ליקויים"
  , "לא תקין", "חסר", "חסרה", "חסרות", "חסרים"
  , "שבור", "שבורה", "שבורים", "סדוק", "סדוקה", "סדוקים"
  , "פגם", "פגמים", "בעיה", "בעיות", "לתקן", "תיקון"
  , "לא בוצע", "לא הותקן", "לא הותקנו", "חתוך", "חתוכים"
  , "להחליף", "החלפה", "נזק", "נזקים", "לא הושלם", "טעון" ]

/-- PARTIAL_KEYWORDS of the rollback route. -/
def PARTIAL_KEYWORDS : List String := ["חלקי", "חלקית", "בביצוע", "בטיפול"]

/-- [hebrewStatus, notes].filter(Boolean).join(" ") of the rollback route. -/
def combinedText (hebrewStatus : String) (notes : Option String) : List Char :=
  List.intercalate [' ']
    ((if hebrewStatus = "" then [] else [chars hebrewStatus])
      ++ (match notes with
          | none => []
          | some n => if n = "" then [] else [chars n]))

/-- Stable insertion of an entry into a list sorted by descending key
length (the entry goes before the first key of smaller-or-equal length). -/
def insertByLenDesc (e : String × String) :
    List (String × String) → List (String × String)
  | [] => [e]
  | f :: fs =>
    if e.1.length < f.1.length then f :: insertByLenDesc e fs
    else e :: f :: fs

/-- Stable sort by descending key length, the V8 semantics of
entries.sort((a, b) => b[0].length - a[0].length). -/
def sortByLenDesc : List (String × String) → List (String × String)
  | [] => []
  | e :: l => insertByLenDesc e (sortByLenDesc l)

/-- The fallback substring phase of the rollback-route normalizeStatus:
first entry of the length-descending table whose lowered key occurs in the
lowered trimmed status. -/
def rollbackPartialLookup (trimmed : List Char) : Option (String × String) :=
  (sortByLenDesc rollbackStatusEntries).find?
    (fun e => lcHas trimmed (lowerL (chars e.1)))

/-- normalizeStatus of the rollback route (same algorithm as the
process-pdfs ingestion script): defect-keyword scan over the combined
status and notes text first, then partial-work keywords, then exact table
lookup, then longest-key-first substring lookup, defaulting to
IN_PROGRESS. -/
def rollbackNormalizeStatus (hebrewStatus : String)
    (notes : Option String := none) : String :=
  let trimmed := lowerL (trimL (chars hebrewStatus))
  let combined := lowerL (combinedText hebrewStatus notes)
  if DEFECT_KEYWORDS.any (fun k => lcHas combined (lowerL (chars k))) then "DEFECT"
  else if PARTIAL_KEYWORDS.any (fun k => lcHas trimmed (lowerL (chars k))) then "IN_PROGRESS"
  else
    match objLookup rollbackStatusEntries (trimL (chars hebrewStatus)) with
    | some st => st
    | none =>
      match rollbackPartialLookup trimmed with
      | some e => e.2
      | none => "IN_PROGRESS"

/-! ## Spec-side formulas for the scope aggregation (claim C2) -/

/-- The category weight exactly as the claim words it: categoryWeights[c]
when defined, defaultCategoryWeight otherwise (the ?? of the spec). -/
def specWeightOfClaimed (cfg : ProgressConfig) (category : String) : ℚ :=
  (objLookup cfg.categoryWeights (chars category)).getD cfg.defaultCategoryWeight

/-- The category weight as the code actually falls back: categoryWeights[c]
when defined and nonzero, defaultCategoryWeight otherwise. -/
def specWeightOfAmended (cfg : ProgressConfig) (category : String) : ℚ :=
  match objLookup cfg.categoryWeights (chars category) with
  | some w => if w ≠ 0 then w else cfg.defaultCategoryWeight
  | none => cfg.defaultCategoryWeight

/-- The per-category value of the claim formula: current progress when the
map contains the category, the CATEGORY_GRADUATED threshold otherwise. -/
def specCategoryValue (cfg : ProgressConfig) (current : List (String × ℚ))
    (category : String) : ℚ :=
  (objLookup current (chars category)).getD cfg.progressThresholds.CATEGORY_GRADUATED

/-- The claim formula for the scope aggregation, with the claimed
?? weight fallback: round of weighted sum over ever-seen categories
divided by total weight; 0 on empty ever-seen set or zero total weight. -/
def specOverallClaimed (cfg : ProgressConfig) (current : List (String × ℚ))
    (categoriesEverSeen : List String) : ℤ :=
  if categoriesEverSeen.isEmpty then 0
  else
    let totalWeight := (categoriesEverSeen.map (specWeightOfClaimed cfg)).sum
    let weightedSum :=
      (categoriesEverSeen.map
        (fun c => specWeightOfClaimed cfg c * specCategoryValue cfg current c)).sum
    if totalWeight = 0 then 0 else jsRound (weightedSum / totalWeight)

/-- The claim formula amended only in the weight fallback (defined AND
nonzero weights are used, others fall back to the default weight). -/
def specOverallAmended (cfg : ProgressConfig) (current : List (String × ℚ))
    (categoriesEverSeen : List String) : ℤ :=
  if categoriesEverSeen.isEmpty then 0
  else
    let totalWeight := (categoriesEverSeen.map (specWeightOfAmended cfg)).sum
    let weightedSum :=
      (categoriesEverSeen.map
        (fun c => specWeightOfAmended cfg c * specCategoryValue cfg current c)).sum
    if totalWeight = 0 then 0 else jsRound (weightedSum / totalWeight)

/-- A config whose only category weight is an explicit zero (all other
fields the defaults); exhibits the || fallback of the aggregator. -/
def zeroWeightConfig : ProgressConfig :=
  { DEFAULT_CONFIG with categoryWeights := [("ELECTRICAL", 0)] }

/-! ## Concrete fixtures for witnesses -/

/-- A logical item present in the latest report with a DEFECT status. -/
def presentDefectItem : ItemHistory :=
  { category := "ELECTRICAL", status := "DEFECT", notes := none
  , description := "נקודת חשמל", location := none, id := "w1"
  , reportDate := 2, apartmentNumber := "1"
  , firstSeenReportIndex := 0, lastSeenReportIndex := 2
  , isInLatestReport := true, hadDefectEver := true, defectReportDate := some 2 }

/-- A logical item absent from the latest report, last recorded with a
clean COMPLETED status. -/
def vanishedItem : ItemHistory :=
  { category := "PLUMBING", status := "COMPLETED", notes := none
  , description := "צנרת", location := none, id := "w2"
  , reportDate := 1, apartmentNumber := "1"
  , firstSeenReportIndex := 0, lastSeenReportIndex := 1
  , isInLatestReport := false, hadDefectEver := false, defectReportDate := none }

/-- An item-history entry whose sticky defect flag is already set. -/
def flaggedItem : ItemHistory :=
  { category := "ELECTRICAL", status := "DEFECT", notes := some "ליקוי"
  , description := "שקע", location := none, id := "w3"
  , reportDate := 0, apartmentNumber := "1"
  , firstSeenReportIndex := 0, lastSeenReportIndex := 0
  , isInLatestReport := true, hadDefectEver := true, defectReportDate := some 0 }

/-- A later, clean record for the same logical item as flaggedItem. -/
def cleanRow : WorkItemRow :=
  { aptNumber := some "1", category := "ELECTRICAL", location := none
  , description := "שקע", status := "COMPLETED_OK", notes := none, id := "w4" }

/-! ## Helper lemmas -/

theorem jsOrQ_zero_right (p : ℚ) : jsOrQ p 0 = p := by
  unfold jsOrQ
  split
  · simp [*]
  · rfl

theorem weightOf_eq_specWeightOfAmended (cfg : ProgressConfig) (c : String) :
    weightOf cfg c = specWeightOfAmended cfg c := by
  unfold weightOf specWeightOfAmended jsOrQ
  cases objLookup cfg.categoryWeights (chars c) with
  | none => rfl
  | some w =>
    by_cases hw : w = 0 <;> simp [hw]

theorem foldl_overallStep_eq (cfg : ProgressConfig) (current : List (String × ℚ))
    (l : List String) (a b : ℚ) :
    l.foldl (overallStep cfg current) (a, b)
      = (a + (l.map (fun c => specWeightOfAmended cfg c * specCategoryValue cfg current c)).sum,
         b + (l.map (specWeightOfAmended cfg)).sum) := by
  induction l generalizing a b with
  | nil => simp
  | cons c cs ih =>
    simp only [List.foldl_cons, List.map_cons, List.sum_cons, ih]
    unfold overallStep
    rw [weightOf_eq_specWeightOfAmended]
    unfold specCategoryValue
    cases hcur : objLookup current (chars c) with
    | none => simp [hcur]; constructor <;> ring
    | some p => simp [hcur, jsOrQ_zero_right]; constructor <;> ring

theorem mem_insertByLenDesc {x e : String × String} {l : List (String × String)} :
    x ∈ insertByLenDesc e l ↔ x = e ∨ x ∈ l := by
  induction l with
  | nil => simp [insertByLenDesc]
  | cons f fs ih =>
    unfold insertByLenDesc
    split
    · simp only [List.mem_cons, ih]
      tauto
    · simp only [List.mem_cons]

theorem mem_sortByLenDesc {x : String × String} {l : List (String × String)} :
    x ∈ sortByLenDesc l ↔ x ∈ l := by
  induction l with
  | nil => simp [sortByLenDesc]
  | cons e l ih =>
    unfold sortByLenDesc
    rw [mem_insertByLenDesc, ih, List.mem_cons]

theorem pairwise_insertByLenDesc {e : String × String} {l : List (String × String)}
    (h : l.Pairwise (fun a b => b.1.length ≤ a.1.length)) :
    (insertByLenDesc e l).Pairwise (fun a b => b.1.length ≤ a.1.length) := by
  induction l with
  | nil => simp [insertByLenDesc]
  | cons f fs ih =>
    rw [List.pairwise_cons] at h
    obtain ⟨hf, hfs⟩ := h
    unfold insertByLenDesc
    split
    · rename_i hlt
      rw [List.pairwise_cons]
      refine ⟨?_, ih hfs⟩
      intro b hb
      rw [mem_insertByLenDesc] at hb
      rcases hb with hb | hb
      · subst hb
        exact Nat.le_of_lt hlt
      · exact hf b hb
    · rename_i hge
      rw [List.pairwise_cons]
      refine ⟨?_, List.Pairwise.cons hf hfs⟩
      intro b hb
      rcases List.mem_cons.mp hb with hb | hb
      · subst hb
        exact Nat.le_of_not_lt hge
      · exact Nat.le_trans (hf b hb) (Nat.le_of_not_lt hge)

theorem sortByLenDesc_pairwise (l : List (String × String)) :
    (sortByLenDesc l).Pairwise (fun a b => b.1.length ≤ a.1.length) := by
  induction l with
  | nil => simp [sortByLenDesc]
  | cons e l ih => exact pairwise_insertByLenDesc ih

theorem find?_first_longest {l : List (String × String)}
    {p : (String × String) → Bool} {e : String × String}
    (hs : l.Pairwise (fun a b => b.1.length ≤ a.1.length))
    (h : l.find? p = some e) :
    ∀ e2 ∈ l, p e2 = true → e2.1.length ≤ e.1.length := by
  induction l with
  | nil => simp at h
  | cons a t ih =>
    rw [List.pairwise_cons] at hs
    obtain ⟨ha, ht⟩ := hs
    by_cases hpa : p a = true
    · rw [List.find?_cons_of_pos _ hpa] at h
      injection h with h
      subst h
      intro e2 he2 _
      rcases List.mem_cons.mp he2 with he2 | he2
      · subst he2; exact Nat.le_refl _
      · exact ha e2 he2
    · rw [List.find?_cons_of_neg _ (by simp [hpa])] at h
      intro e2 he2 hpe2
      rcases List.mem_cons.mp he2 with he2 | he2
      · subst he2; exact absurd hpe2 hpa
      · exact ih ht h e2 he2 hpe2

theorem mapGet_mapSet_self {α} (m : List (String × α)) (k : String) (v : α) :
    mapGet (mapSet m k v) k = some v := by
  induction m with
  | nil => simp [mapSet, mapGet]
  | cons e rest ih =>
    unfold mapSet
    split
    · simp [mapGet]
    · rename_i hne
      unfold mapGet at ih ⊢
      rw [List.find?_cons_of_neg _ (by simp [hne])]
      exact ih

theorem mapGet_mapSet_other {α} (m : List (String × α)) (k k2 : String) (v : α)
    (hne : k ≠ k2) : mapGet (mapSet m k v) k2 = mapGet m k2 := by
  induction m with
  | nil =>
    unfold mapSet mapGet
    rw [List.find?_cons_of_neg _ (by simp [hne])]
  | cons e rest ih =>
    unfold mapSet
    split
    · rename_i heq
      subst heq
      unfold mapGet
      rw [List.find?_cons_of_neg _ (by simp [hne]),
        List.find?_cons_of_neg _ (by simp [hne])]
    · unfold mapGet at ih ⊢
      by_cases he : e.1 = k2
      · rw [List.find?_cons_of_pos _ (by simp [he]),
          List.find?_cons_of_pos _ (by simp [he])]
      · rw [List.find?_cons_of_neg _ (by simp [he]),
          List.find?_cons_of_neg _ (by simp [he])]
        exact ih

theorem stepItem_preserves_flag (latest : List String) (ri rd : ℕ)
    (hist : List (String × ItemHistory)) (row : WorkItemRow) (k : String)
    (h : ItemHistory) (hget : mapGet hist k = some h)
    (hflag : h.hadDefectEver = true) :
    ∃ h2, mapGet (stepItem latest ri rd hist row) k = some h2
      ∧ h2.hadDefectEver = true := by
  unfold stepItem
  by_cases hk : itemKey row = k
  · subst hk
    simp only [hget]
    exact ⟨_, mapGet_mapSet_self _ _ _, by simp [hflag]⟩
  · cases hrow : mapGet hist (itemKey row) with
    | some existing =>
      simp only [hrow]
      exact ⟨h, by rw [mapGet_mapSet_other _ _ _ _ hk]; exact hget, hflag⟩
    | none =>
      simp only [hrow]
      exact ⟨h, by rw [mapGet_mapSet_other _ _ _ _ hk]; exact hget, hflag⟩

theorem processReport_preserves_flag (latest : List String) (ri : ℕ)
    (hist : List (String × ItemHistory)) (r : Report) (k : String)
    (h : ItemHistory) (hget : mapGet hist k = some h)
    (hflag : h.hadDefectEver = true) :
    ∃ h2, mapGet (processReport latest ri hist r) k = some h2
      ∧ h2.hadDefectEver = true := by
  unfold processReport
  induction r.items generalizing hist h with
  | nil => exact ⟨h, hget, hflag⟩
  | cons row rows ih =>
    rw [List.foldl_cons]
    obtain ⟨h2, hget2, hflag2⟩ :=
      stepItem_preserves_flag latest ri r.reportDate hist row k h hget hflag
    exact ih _ _ hget2 hflag2

/-! ## Claim theorems -/

/-- C1: for every logical item, if it is present in the latest report and
its effective status is DEFECT or NOT_OK, its computed score is the
DEFECT_WORK_DONE threshold; if it is absent from the latest report, its
score is the ITEM_FIXED threshold regardless of its recorded status and
notes. -/
theorem defect_and_disappearance_scores (cfg : ProgressConfig)
    (latestIndex : ℕ) (item : ItemHistory) :
    (item.isInLatestReport = true →
      (getEffectiveStatus item.status item.notes = "DEFECT" ∨
        getEffectiveStatus item.status item.notes = "NOT_OK") →
      calculateEffectiveProgress cfg latestIndex item
        = cfg.progressThresholds.DEFECT_WORK_DONE)
    ∧ (item.isInLatestReport = false →
      calculateEffectiveProgress cfg latestIndex item
        = DEFAULT_CONFIG.progressThresholds.ITEM_FIXED) := by
  constructor
  · intro hin heff
    rcases heff with heff | heff <;>
      simp [calculateEffectiveProgress, calculateItemProgressV3, hin, heff]
  · intro hout
    simp [calculateEffectiveProgress, hout]

/-- C1 witness: a present DEFECT item scores DEFECT_WORK_DONE and a
vanished item scores ITEM_FIXED under the default configuration. -/
theorem defect_and_disappearance_scores_witness :
    calculateEffectiveProgress DEFAULT_CONFIG 2 presentDefectItem
      = DEFAULT_CONFIG.progressThresholds.DEFECT_WORK_DONE
    ∧ calculateEffectiveProgress DEFAULT_CONFIG 2 vanishedItem
      = DEFAULT_CONFIG.progressThresholds.ITEM_FIXED :=
  ⟨(defect_and_disappearance_scores DEFAULT_CONFIG 2 presentDefectItem).1
      (by decide) (Or.inl (by decide)),
    (defect_and_disappearance_scores DEFAULT_CONFIG 2 vanishedItem).2 (by decide)⟩

/-- C5: the hadDefectEver flag is monotonic over the history-building fold
of the stats route: from any history state in which an item key carries the
flag, processing any further chronological reports keeps the flag set. -/
theorem hadDefectEver_monotonic (latest : List String) (startIndex : ℕ)
    (hist : List (String × ItemHistory)) (reports : List Report) (k : String)
    (h : ItemHistory) (hget : mapGet hist k = some h)
    (hflag : h.hadDefectEver = true) :
    ∃ h2, mapGet (processReports latest startIndex hist reports) k = some h2
      ∧ h2.hadDefectEver = true := by
  induction reports generalizing startIndex hist h with
  | nil => exact ⟨h, hget, hflag⟩
  | cons r rs ih =>
    obtain ⟨h2, hget2, hflag2⟩ :=
      processReport_preserves_flag latest startIndex hist r k h hget hflag
    exact ih _ _ _ hget2 hflag2

/-- C5 witness: a flagged item stays flagged after a later report whose
record for the same key has a clean status and clean notes. -/
theorem hadDefectEver_monotonic_witness :
    ∃ h2, mapGet
        (processReports [] 1 [("1|ELECTRICAL|שקע", flaggedItem)]
          [{ reportDate := 1, items := [cleanRow] }]) "1|ELECTRICAL|שקע"
        = some h2 ∧ h2.hadDefectEver = true :=
  hadDefectEver_monotonic [] 1 _ _ _ flaggedItem (by decide) (by decide)

/-- C3 counterexample: the status-mapper normalizeStatus (the claimed code
location) maps the combined string to COMPLETED, not DEFECT, because its
substring scan runs in table insertion order and the first key matches. -/
theorem normalizeStatus_headline_token_wins :
    normalizeStatus "בוצע, נמצאו אי תאומים" = WorkStatus.COMPLETED
    ∧ WorkStatus.COMPLETED ≠ WorkStatus.DEFECT := by decide

/-- C3 amended: the ingestion-path normalizeStatus of the rollback route,
which scans the defect-keyword list over the combined status text first,
returns DEFECT and not COMPLETED for the same string. -/
theorem rollback_defect_scan_takes_priority :
    rollbackNormalizeStatus "בוצע, נמצאו אי תאומים" none = "DEFECT"
    ∧ ("DEFECT" : String) ≠ "COMPLETED" := by decide

/-- C4 counterexample: an input that strictly contains both the short key
and the longer more specific key, is no exact table key, and is mapped by
the status-mapper normalizeStatus to the SHORT key status COMPLETED (the
substring loop runs in insertion order, not longest key first). -/
theorem normalizeStatus_insertion_order_wins :
    lcHas (trimL (chars "בוצע - תקין מאוד")) (chars "בוצע") = true
    ∧ lcHas (trimL (chars "בוצע - תקין מאוד")) (chars "בוצע - תקין") = true
    ∧ ("בוצע", WorkStatus.COMPLETED) ∈ hebrewStatusEntries
    ∧ ("בוצע - תקין", WorkStatus.COMPLETED_OK) ∈ hebrewStatusEntries
    ∧ "בוצע".length < "בוצע - תקין".length
    ∧ objLookup hebrewStatusEntries (trimL (chars "בוצע - תקין מאוד")) = none
    ∧ normalizeStatus "בוצע - תקין מאוד" = WorkStatus.COMPLETED
    ∧ WorkStatus.COMPLETED ≠ WorkStatus.COMPLETED_OK := by decide

/-- C4 amended: in the rollback-route normalizeStatus (the ingestion path),
the fallback substring phase does try keys longest first: whenever it
returns an entry, every matching table key is at most as long as the
matched key. -/
theorem rollbackPartialLookup_matches_longest_key (text : List Char)
    (k s k2 s2 : String)
    (hfind : rollbackPartialLookup text = some (k, s))
    (hmem : (k2, s2) ∈ rollbackStatusEntries)
    (hmatch : lcHas text (lowerL (chars k2)) = true) :
    k2.length ≤ k.length :=
  find?_first_longest (sortByLenDesc_pairwise rollbackStatusEntries) hfind
    (k2, s2) (mem_sortByLenDesc.mpr hmem) hmatch

/-- C4 amended witness: on the counterexample input the rollback fallback
matches the longer key, and the short matching key is indeed shorter. -/
theorem rollbackPartialLookup_matches_longest_key_witness :
    rollbackPartialLookup (lowerL (trimL (chars "בוצע - תקין מאוד")))
      = some ("בוצע - תקין", "COMPLETED_OK")
    ∧ ("בוצע", "COMPLETED") ∈ rollbackStatusEntries
    ∧ lcHas (lowerL (trimL (chars "בוצע - תקין מאוד"))) (lowerL (chars "בוצע")) = true
    ∧ "בוצע".length ≤ "בוצע - תקין".length :=
  ⟨by decide, by decide, by decide,
    rollbackPartialLookup_matches_longest_key
      (lowerL (trimL (chars "בוצע - תקין מאוד")))
      "בוצע - תקין" "COMPLETED_OK" "בוצע" "COMPLETED"
      (by decide) (by decide) (by decide)⟩

/-- C6: under the default thresholds, a fixed item with no notes first seen
at the first report and moving NOT_STARTED, IN_PROGRESS, COMPLETED,
COMPLETED_OK across four successive reports scores 5, 30, 75, 90, a
non-decreasing sequence. -/
theorem item_scores_nondecreasing_sequence :
    (calculateItemProgressV3 DEFAULT_CONFIG.progressThresholds "NOT_STARTED"
        none { isFirstTimeSeen := some true }).progress = 5
    ∧ (calculateItemProgressV3 DEFAULT_CONFIG.progressThresholds "IN_PROGRESS"
        none { isFirstTimeSeen := some false }).progress = 30
    ∧ (calculateItemProgressV3 DEFAULT_CONFIG.progressThresholds "COMPLETED"
        none { isFirstTimeSeen := some false }).progress = 75
    ∧ (calculateItemProgressV3 DEFAULT_CONFIG.progressThresholds "COMPLETED_OK"
        none { isFirstTimeSeen := some false }).progress = 90
    ∧ (calculateItemProgressV3 DEFAULT_CONFIG.progressThresholds "NOT_STARTED"
        none { isFirstTimeSeen := some true }).progress
      ≤ (calculateItemProgressV3 DEFAULT_CONFIG.progressThresholds "IN_PROGRESS"
        none { isFirstTimeSeen := some false }).progress
    ∧ (calculateItemProgressV3 DEFAULT_CONFIG.progressThresholds "IN_PROGRESS"
        none { isFirstTimeSeen := some false }).progress
      ≤ (calculateItemProgressV3 DEFAULT_CONFIG.progressThresholds "COMPLETED"
        none { isFirstTimeSeen := some false }).progress
    ∧ (calculateItemProgressV3 DEFAULT_CONFIG.progressThresholds "COMPLETED"
        none { isFirstTimeSeen := some false }).progress
      ≤ (calculateItemProgressV3 DEFAULT_CONFIG.progressThresholds "COMPLETED_OK"
        none { isFirstTimeSeen := some false }).progress := by decide

/-- C8: validating the configuration loadConfig yields when no persisted
config file exists (the unmodified DEFAULT_CONFIG) gives valid with no
errors. -/
theorem validateConfig_loadConfig_roundtrip :
    (validateConfig (loadConfig none)).valid = true
    ∧ (validateConfig (loadConfig none)).errors = [] := by
  constructor <;>
    · norm_num [validateConfig, loadConfig, DEFAULT_CONFIG, thresholdEntries,
        jsAbs, List.filter]
      norm_num [weightSum]

/-- C9: the superseded standalone calculateItemProgressV2 and the current
calculateItemProgressV3 differ, against the identical-results assertion of
the module header: on status COMPLETED_OK with a defect keyword in the
notes, V2 scores COMPLETED_WITH_ISSUES 65 while V3 promotes the effective
status to DEFECT and scores DEFECT_WORK_DONE 55. -/
theorem v2_v3_not_identical :
    (calculateItemProgressV2 "COMPLETED_OK" (some "ליקוי") {}).progress = 65
    ∧ (calculateItemProgressV3 DEFAULT_CONFIG.progressThresholds "COMPLETED_OK"
        (some "ליקוי") {}).progress = 55
    ∧ (65 : ℚ) ≠ 55 := by decide

/-- C10: a raw status that is neither positive nor negative keeps its raw
status through getEffectiveStatus even when the notes contain a defect
keyword, so the V3 score is the raw-status threshold, while itemHasDefect
still counts the item as a defect. -/
theorem neutral_status_negative_notes (t : ProgressThresholds)
    (ctx : ProgressContext) (status : String) (notes : Option String)
    (hst : status = "IN_PROGRESS" ∨ status = "PENDING" ∨ status = "NOT_STARTED")
    (hnotes : hasNegativeNotes notes = true) :
    getEffectiveStatus status notes = status
    ∧ (calculateItemProgressV3 t status notes ctx).progress
        = (if status = "IN_PROGRESS" then t.IN_PROGRESS
           else if status = "PENDING" then t.PENDING else t.NOT_STARTED)
    ∧ itemHasDefect status notes = true := by
  rcases hst with h | h | h <;> subst h <;>
    exact ⟨by simp [getEffectiveStatus, isNegativeStatusS, isPositiveStatusS],
      by simp [calculateItemProgressV3, getEffectiveStatus, isNegativeStatusS,
        isPositiveStatusS],
      by simp [itemHasDefect, isNegativeStatusS, hnotes]⟩

/-- C10 witness: status IN_PROGRESS with defect-keyword notes keeps its
status and its IN_PROGRESS threshold while counting as a defect. -/
theorem neutral_status_negative_notes_witness :
    hasNegativeNotes (some "ליקוי") = true
    ∧ (getEffectiveStatus "IN_PROGRESS" (some "ליקוי") = "IN_PROGRESS"
      ∧ (calculateItemProgressV3 DEFAULT_CONFIG.progressThresholds "IN_PROGRESS"
          (some "ליקוי") {}).progress
        = (if ("IN_PROGRESS" : String) = "IN_PROGRESS" then
            DEFAULT_CONFIG.progressThresholds.IN_PROGRESS
          else if ("IN_PROGRESS" : String) = "PENDING" then
            DEFAULT_CONFIG.progressThresholds.PENDING
          else DEFAULT_CONFIG.progressThresholds.NOT_STARTED)
      ∧ itemHasDefect "IN_PROGRESS" (some "ליקוי") = true) :=
  ⟨by decide,
    neutral_status_negative_notes DEFAULT_CONFIG.progressThresholds {}
      "IN_PROGRESS" (some "ליקוי") (Or.inl rfl) (by decide)⟩

/-- C2 counterexample: with an explicit zero weight for the only ever-seen
category, the claimed formula (weight = categoryWeights[c] when defined)
yields 0 through its zero-total-weight guard, while the code, whose ||
fallback replaces the zero weight by the default weight, yields 50. -/
theorem zero_weight_fallback_diverges :
    calculateOverallProgressWithAllCategories zeroWeightConfig
      [("ELECTRICAL", 50)] ["ELECTRICAL"] = 50
    ∧ specOverallClaimed zeroWeightConfig [("ELECTRICAL", 50)] ["ELECTRICAL"] = 0 := by
  constructor
  · norm_num [calculateOverallProgressWithAllCategories, overallStep, weightOf,
      zeroWeightConfig, DEFAULT_CONFIG, objLookup, jsOrQ, jsRound, List.find?]
  · norm_num [specOverallClaimed, specWeightOfClaimed, specCategoryValue,
      zeroWeightConfig, DEFAULT_CONFIG, objLookup, List.find?]

/-- C2 amended: the scope aggregation equals the claim formula with the
weight fallback amended to defined AND nonzero weights: round of the
weighted sum over ever-seen categories (present ones at their current
progress, absent ones at CATEGORY_GRADUATED) over the total weight, and 0
on an empty ever-seen set or zero total weight; never-seen categories
contribute to neither sum. -/
theorem overallProgress_eq_specAmended (cfg : ProgressConfig)
    (current : List (String × ℚ)) (everSeen : List String) :
    calculateOverallProgressWithAllCategories cfg current everSeen
      = specOverallAmended cfg current everSeen := by
  unfold calculateOverallProgressWithAllCategories specOverallAmended
  rw [foldl_overallStep_eq]
  simp

theorem singletonIf_eq_nil {c : Prop} [Decidable c] {m : VMsg} :
    ((if c then [m] else []) = []) ↔ ¬c := by
  split <;> simp_all

/-- C7: validateConfig reports errors (valid false) exactly for: weight sum
off 100 by more than 0.01, a negative weight, a threshold outside [0,100],
baseline or max progress outside [0,100], baseline at least max, a negative
default category weight, or a negative defect penalty; threshold-ordering
violations and zero weights are warnings only, so valid is true whenever
none of the error conditions holds. -/
theorem validateConfig_valid_iff (cfg : ProgressConfig) :
    (validateConfig cfg).valid = true ↔
      (jsAbs (weightSum cfg.categoryWeights - 100) ≤ 1/100
       ∧ (∀ e ∈ cfg.categoryWeights, 0 ≤ e.2)
       ∧ (∀ e ∈ thresholdEntries cfg.progressThresholds, 0 ≤ e.2 ∧ e.2 ≤ 100)
       ∧ 0 ≤ cfg.baselineProgress ∧ cfg.baselineProgress ≤ 100
       ∧ 0 ≤ cfg.maxProgress ∧ cfg.maxProgress ≤ 100
       ∧ cfg.baselineProgress < cfg.maxProgress
       ∧ 0 ≤ cfg.defaultCategoryWeight
       ∧ 0 ≤ cfg.defectPenalty) := by
  simp only [validateConfig, List.isEmpty_iff, List.append_eq_nil,
    singletonIf_eq_nil, List.map_eq_nil_iff, List.filter_eq_nil_iff,
    decide_eq_true_eq, Bool.or_eq_true, not_or, not_lt, not_le, and_assoc]
